import Mathlib

/-!
Verification of the Carmaker scheduler core: the resource-leasing pool
(src/core/resource_manager.py), the surrogate admission gate
(src/core/surrogate.py) and the trial loop (src/core/orchestrator.py).

External collaborators (the CarMaker process, the sklearn GP model, the
scipy normal distribution, the optuna study, the file-based result parser)
are modelled as oracle inputs: the embedded functions are parameterised over
their results, exactly at the call sites where the Python code invokes them.
-/

deriving instance DecidableEq for Except

namespace Carmaker

/-- A Python float as it flows through the scheduler: either a finite value
(modelled as a rational) or the IEEE infinity produced by
ResultHandler.process_results for crashed runs. -/
inductive PyFloat where
  | fin (q : ℚ)
  | inf
deriving DecidableEq, Repr

/-- The test cost >= 900.0 from SurrogateOracle.add_observation; infinity
compares greater than 900.0 in Python. -/
def PyFloat.ge900 : PyFloat → Bool
  | .fin q => decide ((900 : ℚ) ≤ q)
  | .inf => true

/-- Extract the rational of a finite float (only used on values that were
checked to be below the 900.0 clamp threshold, hence finite). -/
def PyFloat.toQ : PyFloat → ℚ
  | .fin q => q
  | .inf => 0

/-! ## ResourceManager (src/core/resource_manager.py)

Two models are used.  The first is a single-call functional model of the
lease context manager (lines 34-71): it runs one body to completion and
records every release event, which settles the exactly-once-release claims.
The second is a small-step transition system over interleaved workers,
splitting the two acquisition phases (semaphore, then port queue) into
separate atomic steps, which settles the global capacity invariant. -/

namespace ResourceManager

/-- The shared state of one ResourceManager: the multiprocessing queue of
available ports and the current counter of the license semaphore. -/
structure ManagerState where
  availablePorts : List ℕ
  semCount : ℕ
deriving DecidableEq, Repr

/-- The state built by ResourceManager.__init__(start_port, max_licenses):
ports start_port .. start_port + max_licenses - 1 in the queue, and the
semaphore at max_licenses. -/
def initState (startPort maxLicenses : ℕ) : ManagerState :=
  ⟨(List.range maxLicenses).map (fun i => startPort + i), maxLicenses⟩

/-- How one lease call ends: the body returned, the body raised, the
port queue timed out after the semaphore was granted (the
ResourceWarning at line 57), or the semaphore is exhausted and the
caller blocks (not an exit path: contention is a wait, not an error). -/
inductive LeaseOutcome (ε α : Type) where
  | ok (a : α)
  | bodyFailed (e : ε)
  | portPoolExhaustion
  | blocked
deriving DecidableEq, Repr

/-- Release events recorded while one lease call unwinds: which ports were
put back into the queue, and how many times the semaphore was released. -/
structure LeaseLog where
  portReturns : List ℕ
  semReleases : ℕ
deriving DecidableEq, Repr

/-- Functional model of the lease context manager (lines 34-71), run
against one body.  The body is the code under the with-statement; it
either returns a value or raises.  The try/finally structure of the
source is mirrored directly: once the semaphore is acquired, the finally
block runs on every exit path, returning the port (if one was obtained)
and releasing the semaphore. -/
def lease {ε α : Type} (m : ManagerState) (body : ℕ → Except ε α) :
    LeaseOutcome ε α × ManagerState × LeaseLog :=
  if m.semCount = 0 then
    (.blocked, m, ⟨[], 0⟩)
  else
    match m.availablePorts with
    | [] =>
      (.portPoolExhaustion, ⟨[], m.semCount - 1 + 1⟩, ⟨[], 1⟩)
    | p :: rest =>
      match body p with
      | .ok a => (.ok a, ⟨rest ++ [p], m.semCount - 1 + 1⟩, ⟨[p], 1⟩)
      | .error e => (.bodyFailed e, ⟨rest ++ [p], m.semCount - 1 + 1⟩, ⟨[p], 1⟩)

/-- Global state of the pool under concurrent workers.  Each worker is a
natural-number id.  A worker in `licensed` holds a semaphore permit but has
not yet popped a port (between lines 49 and 53); a pair in `holding` is a
worker together with the port it leased. -/
structure PoolState where
  maxLicenses : ℕ
  sem : ℕ
  available : List ℕ
  licensed : List ℕ
  holding : List (ℕ × ℕ)
deriving DecidableEq, Repr

/-- Initial pool state for start_port and max_licenses, as built by
ResourceManager.__init__. -/
def initPool (startPort maxLicenses : ℕ) : PoolState :=
  ⟨maxLicenses, maxLicenses, (List.range maxLicenses).map (fun i => startPort + i), [], []⟩

/-- One atomic step of one worker against the shared pool.  The two
acquisition phases of lease are separate steps, so every interleaving of
concurrent lease calls is a path in this relation. -/
inductive Step : PoolState → PoolState → Prop
  | acquireLicense (s : PoolState) (w : ℕ) :
      0 < s.sem →
      Step s { s with sem := s.sem - 1, licensed := w :: s.licensed }
  | acquirePort (s : PoolState) (w p : ℕ) (rest pre post : List ℕ) :
      s.licensed = pre ++ w :: post →
      s.available = p :: rest →
      Step s { s with available := rest,
                      licensed := pre ++ post,
                      holding := (w, p) :: s.holding }
  | abortNoPort (s : PoolState) (w : ℕ) (pre post : List ℕ) :
      s.licensed = pre ++ w :: post →
      s.available = [] →
      Step s { s with licensed := pre ++ post, sem := s.sem + 1 }
  | release (s : PoolState) (w p : ℕ) (pre post : List (ℕ × ℕ)) :
      s.holding = pre ++ (w, p) :: post →
      Step s { s with holding := pre ++ post,
                      available := s.available ++ [p],
                      sem := s.sem + 1 }

/-- Reachability from an initial state by any interleaving of steps. -/
inductive Reachable (init : PoolState) : PoolState → Prop
  | refl : Reachable init init
  | step {s t : PoolState} : Reachable init s → Step s t → Reachable init t

/-- Number of license permits currently held (granted and not yet
released): workers between the two phases plus workers holding a port. -/
def leasedCount (s : PoolState) : ℕ :=
  s.licensed.length + s.holding.length

/-- The ports currently held by in-flight trials. -/
def heldPorts (s : PoolState) : List ℕ :=
  s.holding.map Prod.snd

/-- The port tokens created by __init__ for start_port and max_licenses. -/
def initialPorts (startPort maxLicenses : ℕ) : List ℕ :=
  (List.range maxLicenses).map (fun i => startPort + i)

/-- The bookkeeping invariant of the pool: permits outstanding plus the
free semaphore count equals the capacity, and the free ports together
with the held ports are a permutation of the ports created at
construction. -/
def Inv (startPort maxLicenses : ℕ) (s : PoolState) : Prop :=
  s.maxLicenses = maxLicenses ∧
  s.sem + s.licensed.length + s.holding.length = maxLicenses ∧
  (s.available ++ heldPorts s).Perm (initialPorts startPort maxLicenses)

end ResourceManager

/-! ## SurrogateOracle (src/core/surrogate.py)

The sklearn GaussianProcessRegressor and the scipy normal distribution are
external collaborators; the embedding is parameterised over the results of
model.fit, model.predict, norm.cdf and norm.pdf at exactly the call sites
where the source invokes them. -/

namespace SurrogateOracle

/-- The mutable attributes that SurrogateOracle.__init__ assigns (lines
44-47): the trained flag and the append-only training history.  The
constants xi = 0.01 (line 51) and SOFT_FAILURE_COST = 150.0 (line 55) are
inlined where used.  No train_frequency and no max_trusted_distance
attribute is assigned anywhere in the class (or anywhere else in the
repository), so those two attribute lookups made by the orchestrator are
modelled below as absent. -/
structure State where
  is_trained : Bool
  X_history : List (List ℚ)
  y_history : List ℚ
  feature_names : List String
deriving DecidableEq, Repr

/-- The state built by SurrogateOracle.__init__. -/
def initState : State := ⟨false, [], [], []⟩

/-- getattr(oracle, "train_frequency"): the attribute is never assigned in
the repository, so the lookup fails (AttributeError); `none` records the
absence. -/
def trainFrequencyAttr : Option ℕ := none

/-- getattr(oracle, "max_trusted_distance"): the attribute is never
assigned in the repository, so the lookup fails (AttributeError); `none`
records the absence. -/
def maxTrustedDistanceAttr : Option ℚ := none

/-- SurrogateOracle.add_observation (lines 57-79).  One observation is
appended; a cost at or above 900.0 (the 999.0 sentinel, or the infinity
coming from a crashed parse) is replaced by SOFT_FAILURE_COST = 150.0 plus
the sampled Gaussian noise term, which is passed in as `noise` (the result
of np.random.normal(0, 1.0)). -/
def add_observation (s : State) (params : List (String × ℚ))
    (results : PyFloat × PyFloat) (noise : ℚ) : State :=
  let cost := results.1
  let stored : ℚ := if cost.ge900 then 150 + noise else cost.toQ
  { s with feature_names := params.map Prod.fst,
           X_history := s.X_history ++ [params.map Prod.snd],
           y_history := s.y_history ++ [stored] }

/-- SurrogateOracle.train (lines 81-103).  With fewer than 5 observations
it returns without touching the model.  Otherwise model.fit runs inside a
try block: on success is_trained is set, on any exception the error is
logged and swallowed, leaving the state unchanged.  `fit` is the outcome
of the external model.fit call. -/
def train {ε : Type} (s : State) (fit : Except ε Unit) : State :=
  if s.X_history.length < 5 then s
  else
    match fit with
    | .ok _ => { s with is_trained := true }
    | .error _ => s

/-- Failures that can escape evaluate_trust: an exception from the external
model.predict call (there is no try/except around it in the source), the
ValueError of np.min on an empty history, and the TypeError raised at line
137 — mu and sigma are scalarized at lines 123-124 and scipy cdf and pdf
return numpy scalars for scalar input, so ei is an immutable numpy.float64
and the vectorized item assignment `ei[sigma <= 0.0] = 0.0` always raises
TypeError when reached. -/
inductive GateErr (ε : Type) where
  | ext (e : ε)
  | emptyHistory
  | eiItemAssignment
deriving DecidableEq, Repr

/-- SurrogateOracle.evaluate_trust (lines 105-144).  Untrained: the
sentinel ((0.0, 0.0), 100.0, True).  Trained: predict mean and sigma
(external model.predict — uncaught exceptions propagate), take the best
observed cost via np.min, and form the expected-improvement scalar
ei = imp * cdf(z) + sigma * pdf(z) with xi = 0.01.  The next source line,
`ei[sigma <= 0.0] = 0.0` (line 137), item-assigns the immutable numpy
scalar ei and raises TypeError on every trained call that reaches it
(np.errstate at line 131 only warns on divide, it does not raise), so the
decision triple of line 144 is dead code: a trained evaluate_trust call
with a successful predict never returns a decision. -/
def evaluate_trust {ε : Type} (s : State) (predict : Except ε (ℚ × ℚ))
    (normCdf normPdf : ℚ → ℚ) : Except (GateErr ε) ((ℚ × ℚ) × ℚ × Bool) :=
  if ¬ s.is_trained then
    .ok ((0, 0), 100, true)
  else
    match predict with
    | .error e => .error (.ext e)
    | .ok (mu, sigma) =>
      match s.y_history.min? with
      | none => .error .emptyHistory
      | some currentBest =>
        let imp := currentBest - mu - (1 / 100)
        let z := imp / sigma
        let ei : ℚ := imp * normCdf z + sigma * normPdf z
        .error .eiItemAssignment

end SurrogateOracle

/-! ## OptimizationOrchestrator (src/core/orchestrator.py)

The trial loop.  objective (lines 52-125) is the evaluate entry point; its
simulation helper _run_carmaker_simulation (lines 127-174) wraps the
configuration writer, the resource lease and the external CarMaker run in
one try block whose only re-raised exception is optuna.TrialPruned. -/

namespace Orchestrator

/-- The exceptions that can escape objective to the proposer (the optuna
study): the re-raised TrialPruned, the AttributeError from the missing
train_frequency attribute (line 119), the AttributeError from the missing
max_trusted_distance attribute (line 92), and an uncaught error escaping
the surrogate gate (line 70). -/
inductive OrchError (ε : Type) where
  | trialPruned
  | missingTrainFrequency
  | missingMaxTrustedDistance
  | gateError (e : SurrogateOracle.GateErr ε)
deriving DecidableEq, Repr

/-- The dictionary returned by ResultHandler.process_results, reduced to
the two keys the orchestrator reads (lines 152-153); a missing key falls
back to the default of dict.get.  A crashed parse yields cost = infinity
(the fail_kpis dictionary of data_handler.py line 30). -/
structure Kpis where
  cost : Option PyFloat
  max_roll : Option PyFloat
deriving DecidableEq, Repr

/-- Instrumented result of _run_carmaker_simulation: the returned pair or
the propagated exception, plus how many times ResourceManager.lease and
the external simulation were invoked. -/
structure SimRunOut (ε : Type) where
  result : Except (OrchError ε) (PyFloat × PyFloat)
  leaseCalls : ℕ
  simCalls : ℕ

/-- _run_carmaker_simulation (lines 127-174).  `cfg` is the outcome of
param_manager.create_run_configuration, `leaseRes` the outcome of entering
resources.lease (the port, or the ResourceWarning raised on port-pool
exhaustion), `simRes` the outcome of interface.run_simulation (a status
string, or an exception), `kpis` the dictionary from process_results.
Every exception except optuna.TrialPruned is caught by the blanket
handler at line 172 and converted to the bounded pair (999.0, 99.0). -/
def run_carmaker_simulation {ε : Type} (cfg : Except ε Unit)
    (leaseRes : Except ε ℕ) (simRes : Except ε String) (kpis : Kpis) :
    SimRunOut ε :=
  match cfg with
  | .error _ => ⟨.ok (.fin 999, .fin 99), 0, 0⟩
  | .ok _ =>
    match leaseRes with
    | .error _ => ⟨.ok (.fin 999, .fin 99), 1, 0⟩
    | .ok _port =>
      match simRes with
      | .error _ => ⟨.ok (.fin 999, .fin 99), 1, 1⟩
      | .ok status =>
        if status = "PRUNED" then ⟨.error .trialPruned, 1, 1⟩
        else if status ≠ "SUCCESS" then ⟨.ok (.fin 999, .fin 99), 1, 1⟩
        else ⟨.ok (kpis.cost.getD (.fin 999), kpis.max_roll.getD (.fin 99)), 1, 1⟩

/-- Whether a returned outcome is a measured simulation result or the
fused surrogate prediction of the soft-prune branch. -/
inductive Provenance where
  | measured
  | predicted
deriving DecidableEq, Repr

/-- All external inputs consumed by one objective call: the candidate
parameters suggested by optuna, the surrogate model oracles, the delta
learner bias, the fused uncertainty (np.sqrt of the squared sum, computed
by numpy), the study state, and the simulation-path outcomes. -/
structure Env (ε : Type) where
  params : List (String × ℚ)
  predict : Except ε (ℚ × ℚ)
  normCdf : ℚ → ℚ
  normPdf : ℚ → ℚ
  biasMean : ℚ
  biasStd : ℚ
  totalUncertainty : ℚ
  currentRecord : ℚ
  nTrials : ℕ
  fit : Except ε Unit
  noise : ℚ
  cfg : Except ε Unit
  leaseRes : Except ε ℕ
  simRes : Except ε String
  kpis : Kpis

/-- Instrumented result of one objective call: the value returned to the
proposer (or the exception that escaped), the provenance of a returned
value, whether the real-simulation branch was taken, the lease and
simulation call counts, the surrogate state after the call, and whether
surrogate.train was invoked. -/
structure ObjOut (ε : Type) where
  result : Except (OrchError ε) (PyFloat × PyFloat)
  provenance : Option Provenance
  ranReal : Bool
  leaseCalls : ℕ
  simCalls : ℕ
  oracleAfter : SurrogateOracle.State
  trainCalled : Bool

/-- The admitted-evaluation path of objective (lines 112-122): run the
simulation, feed the observation to the surrogate, then test
len(study.trials) % surrogate.train_frequency — an attribute lookup that
fails because SurrogateOracle assigns no train_frequency. -/
def runReal {ε : Type} (s : SurrogateOracle.State) (env : Env ε) : ObjOut ε :=
  let r := run_carmaker_simulation env.cfg env.leaseRes env.simRes env.kpis
  match r.result with
  | .error e => ⟨.error e, none, true, r.leaseCalls, r.simCalls, s, false⟩
  | .ok res =>
    let s2 := SurrogateOracle.add_observation s env.params res env.noise
    match SurrogateOracle.trainFrequencyAttr with
    | none => ⟨.error .missingTrainFrequency, none, true, r.leaseCalls, r.simCalls, s2, false⟩
    | some k =>
      if env.nTrials % k = 0 then
        ⟨.ok res, some .measured, true, r.leaseCalls, r.simCalls,
          SurrogateOracle.train s2 env.fit, true⟩
      else
        ⟨.ok res, some .measured, true, r.leaseCalls, r.simCalls, s2, false⟩

/-- objective (lines 52-125).  Untrained surrogate: run_real_sim stays
True.  Trained: consult evaluate_trust (uncaught errors escape), fuse the
delta-learner bias, compute the lower confidence bound
corrected - 1.96 * total_uncertainty, and walk the decision matrix:
novelty flag first (whose log line reads the missing max_trusted_distance
attribute), then the optimistic-bound test, else soft-prune and return
the fused prediction (corrected_time, pred_res second component). -/
def objective {ε : Type} (s : SurrogateOracle.State) (env : Env ε) : ObjOut ε :=
  if s.is_trained then
    match SurrogateOracle.evaluate_trust s env.predict env.normCdf env.normPdf with
    | .error e => ⟨.error (.gateError e), none, false, 0, 0, s, false⟩
    | .ok ((predTime, predSecond), _physUncertainty, isNovel) =>
      let correctedTime := predTime + env.biasMean
      let lcbTime := correctedTime - (196 / 100) * env.totalUncertainty
      if isNovel then
        match SurrogateOracle.maxTrustedDistanceAttr with
        | none => ⟨.error .missingMaxTrustedDistance, none, false, 0, 0, s, false⟩
        | some _ => runReal s env
      else if lcbTime < env.currentRecord then
        runReal s env
      else
        ⟨.ok (.fin correctedTime, .fin predSecond), some .predicted, false, 0, 0, s, false⟩
  else
    runReal s env

end Orchestrator

/-- Test fixture: a trained surrogate state with five ingested
observations (costs 60 .. 64 seconds). -/
def sNovel : SurrogateOracle.State :=
  ⟨true, [[1], [2], [3], [4], [5]], [60, 61, 62, 63, 64], []⟩

/-- Test fixture: an environment whose predict oracle reports mean 58 with
sigma 1 — above the 0.5 exploration ceiling, so this input is shaped to
take the exploration branch had the gate returned its flag — with zero cdf
and pdf oracles, a current record of 59, and a successful simulation
path. -/
def envNovel : Orchestrator.Env Unit :=
  ⟨[], Except.ok (58, 1), fun _ => 0, fun _ => 0, 0, 0, 1, 59, 0,
    Except.ok (), 0, Except.ok (), Except.ok 16660,
    Except.ok ("SUCCESS"), ⟨some (.fin 57), some (.fin 2)⟩⟩

/-! ## Theorems -/

open ResourceManager SurrogateOracle Orchestrator

/-- The initial pool state satisfies the bookkeeping invariant. -/
theorem inv_initPool (startPort maxLicenses : ℕ) :
    Inv startPort maxLicenses (initPool startPort maxLicenses) := by
  refine ⟨rfl, by simp [initPool], ?_⟩
  simp [initPool, heldPorts, initialPorts]

/-- Every step of the pool preserves the bookkeeping invariant. -/
theorem inv_step {startPort maxLicenses : ℕ} {s t : PoolState}
    (hinv : Inv startPort maxLicenses s) (hstep : Step s t) :
    Inv startPort maxLicenses t := by
  obtain ⟨hmax, hsum, hperm⟩ := hinv
  cases hstep with
  | acquireLicense w hsem =>
    refine ⟨hmax, ?_, ?_⟩
    · dsimp only
      simp only [List.length_cons]
      omega
    · simpa [heldPorts] using hperm
  | acquirePort w p rest pre post hw hav =>
    refine ⟨hmax, ?_, ?_⟩
    · dsimp only
      rw [hw] at hsum
      simp only [List.length_append, List.length_cons] at hsum ⊢
      omega
    · dsimp only [heldPorts]
      simp only [List.map_cons]
      refine List.Perm.trans ?_ hperm
      dsimp only [heldPorts]
      rw [hav]
      exact List.perm_middle
  | abortNoPort w pre post hw hav =>
    refine ⟨hmax, ?_, ?_⟩
    · dsimp only
      rw [hw] at hsum
      simp only [List.length_append, List.length_cons] at hsum ⊢
      omega
    · simpa [heldPorts] using hperm
  | release w p pre post hw =>
    have hport : (heldPorts s).Perm (p :: (List.map Prod.snd pre ++ List.map Prod.snd post)) := by
      dsimp only [heldPorts]
      rw [hw]
      simp only [List.map_append, List.map_cons]
      exact List.perm_middle
    refine ⟨hmax, ?_, ?_⟩
    · dsimp only
      rw [hw] at hsum
      simp only [List.length_append, List.length_cons] at hsum ⊢
      omega
    · dsimp only [heldPorts]
      refine List.Perm.trans ?_ hperm
      simp only [List.map_append]
      have h2 : (s.available ++ [p]) ++ (List.map Prod.snd pre ++ List.map Prod.snd post)
          = s.available ++ p :: (List.map Prod.snd pre ++ List.map Prod.snd post) := by
        simp
      rw [h2]
      exact (hport.symm).append_left s.available

/-- Every reachable pool state satisfies the bookkeeping invariant. -/
theorem inv_reachable {startPort maxLicenses : ℕ} {s : PoolState}
    (h : Reachable (initPool startPort maxLicenses) s) :
    Inv startPort maxLicenses s := by
  induction h with
  | refl => exact inv_initPool startPort maxLicenses
  | step _ hstep ih => exact inv_step ih hstep

/-- The ports handed out at construction are pairwise distinct. -/
theorem initialPorts_nodup (startPort maxLicenses : ℕ) :
    (initialPorts startPort maxLicenses).Nodup := by
  refine List.Nodup.map ?_ (List.nodup_range _)
  intro a b hab
  dsimp only at hab
  omega

/-- C1: in every state reachable under any interleaving of concurrent
lease and release calls, the number of license permits held never exceeds
max_licenses, and no port token is held by two in-flight trials at the
same time. -/
theorem C1_pool_capacity_and_port_exclusivity (startPort maxLicenses : ℕ)
    (s : PoolState) (h : Reachable (initPool startPort maxLicenses) s) :
    leasedCount s ≤ maxLicenses ∧ (heldPorts s).Nodup := by
  obtain ⟨_, hsum, hperm⟩ := inv_reachable h
  have hnd : (s.available ++ heldPorts s).Nodup :=
    (hperm.nodup_iff).mpr (initialPorts_nodup startPort maxLicenses)
  refine ⟨?_, List.Nodup.of_append_right hnd⟩
  dsimp only [leasedCount]
  omega

/-- C1 witness: a concrete two-step interleaving (one worker takes the
license, then the port) on a pool of capacity 2 starting at port 16660. -/
theorem C1_pool_capacity_and_port_exclusivity_witness :
    leasedCount ⟨2, 1, [16661], [], [(7, 16660)]⟩ ≤ 2 ∧
    (heldPorts (⟨2, 1, [16661], [], [(7, 16660)]⟩ : PoolState)).Nodup := by
  have h1 : Reachable (initPool 16660 2) ⟨2, 1, [16660, 16661], [7], []⟩ :=
    Reachable.step Reachable.refl (Step.acquireLicense (initPool 16660 2) 7 (by decide))
  have h2 : Reachable (initPool 16660 2) ⟨2, 1, [16661], [], [(7, 16660)]⟩ :=
    Reachable.step h1
      (Step.acquirePort ⟨2, 1, [16660, 16661], [7], []⟩ 7 16660 [16661] [] [] rfl rfl)
  exact C1_pool_capacity_and_port_exclusivity 16660 2 _ h2

/-- C2: every lease entry that obtains a port puts exactly that port back
into the available set exactly once and releases the license semaphore
exactly once, on every exit path of the body (normal return or raised
exception); the pool state after the lease has the full semaphore count
restored and the port back in the queue. -/
theorem C2_lease_releases_exactly_once {ε α : Type} (m : ManagerState)
    (body : ℕ → Except ε α) (p : ℕ) (rest : List ℕ)
    (hsem : m.semCount ≠ 0) (hports : m.availablePorts = p :: rest) :
    (lease m body).2.2.portReturns = [p] ∧
    (lease m body).2.2.semReleases = 1 ∧
    (lease m body).2.1.availablePorts = rest ++ [p] ∧
    (lease m body).2.1.semCount = m.semCount := by
  have hrestore : m.semCount - 1 + 1 = m.semCount :=
    Nat.succ_pred_eq_of_pos (Nat.pos_of_ne_zero hsem)
  unfold lease
  rw [if_neg hsem, hports]
  cases hb : body p <;> simp [hb, hrestore]

/-- C2 witness: a pool of capacity 2 with ports 16660 and 16661, run
against a body that raises. -/
theorem C2_lease_releases_exactly_once_witness :
    (lease (initState 16660 2) (fun p => (Except.error p : Except ℕ Unit))).2.2.portReturns = [16660] ∧
    (lease (initState 16660 2) (fun p => (Except.error p : Except ℕ Unit))).2.2.semReleases = 1 ∧
    (lease (initState 16660 2) (fun p => (Except.error p : Except ℕ Unit))).2.1.availablePorts
        = [16661] ++ [16660] ∧
    (lease (initState 16660 2) (fun p => (Except.error p : Except ℕ Unit))).2.1.semCount
        = (initState 16660 2).semCount :=
  C2_lease_releases_exactly_once (initState 16660 2) (fun p => (Except.error p : Except ℕ Unit))
    16660 [16661] (by decide) (by decide)

/-- C3: the soft-skip contract fails on the code because the gate crashes
first.  On every trained consultation whose model.predict succeeds —
including a soft-skip-shaped input (predicted mean 10, sigma 0.4 below the
ceiling, best observed 9, record 5 unbeatable by the optimistic bound) —
evaluate_trust raises TypeError at surrogate.py line 137 before returning
any decision, so objective propagates the error to the proposer and the
soft-prune branch (orchestrator.py lines 102-109) is unreachable: no
corrected estimate is ever returned.  The pool half of the claim does hold
at the failing input: no lease call and no launch happen. -/
theorem C3_soft_skip_unreachable_type_error :
    SurrogateOracle.evaluate_trust (⟨true, [], [9], []⟩ : SurrogateOracle.State)
        (Except.ok ((10 : ℚ), (2 / 5 : ℚ)) : Except Unit (ℚ × ℚ))
        (fun _ => 0) (fun _ => 0)
      = Except.error SurrogateOracle.GateErr.eiItemAssignment ∧
    (objective (ε := Unit) (⟨true, [], [9], []⟩ : SurrogateOracle.State)
        ⟨[], Except.ok (10, 2 / 5), fun _ => 0, fun _ => 0, 0, 0, 1, 5, 0,
          Except.ok (), 0, Except.ok (), Except.ok 16660,
          Except.ok ("SUCCESS"), ⟨none, none⟩⟩).result
      = Except.error (OrchError.gateError SurrogateOracle.GateErr.eiItemAssignment) ∧
    (objective (ε := Unit) (⟨true, [], [9], []⟩ : SurrogateOracle.State)
        ⟨[], Except.ok (10, 2 / 5), fun _ => 0, fun _ => 0, 0, 0, 1, 5, 0,
          Except.ok (), 0, Except.ok (), Except.ok 16660,
          Except.ok ("SUCCESS"), ⟨none, none⟩⟩).provenance = none ∧
    (objective (ε := Unit) (⟨true, [], [9], []⟩ : SurrogateOracle.State)
        ⟨[], Except.ok (10, 2 / 5), fun _ => 0, fun _ => 0, 0, 0, 1, 5, 0,
          Except.ok (), 0, Except.ok (), Except.ok 16660,
          Except.ok ("SUCCESS"), ⟨none, none⟩⟩).leaseCalls = 0 ∧
    (objective (ε := Unit) (⟨true, [], [9], []⟩ : SurrogateOracle.State)
        ⟨[], Except.ok (10, 2 / 5), fun _ => 0, fun _ => 0, 0, 0, 1, 5, 0,
          Except.ok (), 0, Except.ok (), Except.ok 16660,
          Except.ok ("SUCCESS"), ⟨none, none⟩⟩).simCalls = 0 := by
  exact ⟨rfl, rfl, rfl, rfl, rfl⟩

/-- C4 counterexample: an admitted evaluation whose simulation ends in
the early-abort terminal state (status PRUNED, a non-Completed state)
makes objective raise optuna.TrialPruned to the proposer instead of
returning a bounded outcome tuple. -/
theorem C4_counterexample :
    (objective (ε := Unit) SurrogateOracle.initState
        ⟨[], Except.ok (0, 0), fun q => q, fun q => q, 0, 0, 0, 0, 0,
          Except.ok (), 0, Except.ok (), Except.ok 16660,
          Except.ok ("PRUNED"), ⟨none, none⟩⟩).result
      = Except.error OrchError.trialPruned := by
  rfl

/-- C4 amended: for every failed, crashed or timed-out evaluation — any
simulation status other than SUCCESS and other than the early-abort
PRUNED, and any exception caught along the path — _run_carmaker_simulation
returns the bounded pair (999.0, 99.0) and raises nothing; only the PRUNED
status raises, as shown by the counterexample. -/
theorem C4_amended {ε : Type} (cfg : Except ε Unit) (leaseRes : Except ε ℕ)
    (st : String) (e : ε) (kpis : Kpis)
    (h1 : st ≠ "PRUNED") (h2 : st ≠ "SUCCESS") :
    (run_carmaker_simulation cfg leaseRes (Except.ok st) kpis).result
        = Except.ok (.fin 999, .fin 99) ∧
    (run_carmaker_simulation cfg leaseRes (Except.error e) kpis).result
        = Except.ok (.fin 999, .fin 99) := by
  unfold Orchestrator.run_carmaker_simulation
  rcases cfg with e1 | u
  · exact ⟨rfl, rfl⟩
  · rcases leaseRes with e2 | p
    · exact ⟨rfl, rfl⟩
    · refine ⟨?_, rfl⟩
      simp [h1, h2]

/-- C4 amended witness: a crashed simulation (status FAILED) on the
admitted path with the lease granted. -/
theorem C4_amended_witness :
    (run_carmaker_simulation (ε := Unit) (Except.ok ()) (Except.ok 16660)
        (Except.ok ("FAILED")) ⟨none, none⟩).result
        = Except.ok (.fin 999, .fin 99) ∧
    (run_carmaker_simulation (ε := Unit) (Except.ok ()) (Except.ok 16660)
        (Except.error ()) ⟨none, none⟩).result
        = Except.ok (.fin 999, .fin 99) :=
  C4_amended (Except.ok ()) (Except.ok 16660) "FAILED" () ⟨none, none⟩
    (by decide) (by decide)

/-- The admitted path always runs for real: whatever the simulation
outcome, runReal leases once, launches once (when the configuration step
and the lease succeed) and never produces a predicted-provenance result. -/
theorem runReal_admitted_facts {ε : Type} (s : SurrogateOracle.State)
    (env : Env ε) (p : ℕ)
    (hcfg : env.cfg = Except.ok ()) (hlease : env.leaseRes = Except.ok p) :
    (runReal s env).ranReal = true ∧
    (runReal s env).provenance ≠ some Provenance.predicted ∧
    (runReal s env).leaseCalls = 1 ∧
    (runReal s env).simCalls = 1 := by
  unfold Orchestrator.runReal Orchestrator.run_carmaker_simulation
  rw [hcfg, hlease]
  rcases hs : env.simRes with e | st
  · simp [SurrogateOracle.trainFrequencyAttr]
  · by_cases hp : st = "PRUNED"
    · simp [hp, SurrogateOracle.trainFrequencyAttr]
    · by_cases hx : st = "SUCCESS"
      · simp [hp, hx, SurrogateOracle.trainFrequencyAttr]
      · simp [hp, hx, SurrogateOracle.trainFrequencyAttr]

/-- C5: on an untrained surrogate the gate always admits: objective takes
the real-evaluation path (one lease call, one simulation launch) and never
returns a predicted-provenance outcome; evaluate_trust on the unfit model
returns only the sentinel (0.0, 0.0) with the maximal uncertainty 100.0
and the force-admit flag; and train on fewer than 5 observations leaves
the model unfit. -/
theorem C5_untrained_gate_always_admits {ε : Type} (s : SurrogateOracle.State)
    (env : Env ε) (fitRes : Except ε Unit) (p : ℕ)
    (huntrained : s.is_trained = false)
    (hlen : s.X_history.length < 5)
    (hcfg : env.cfg = Except.ok ())
    (hlease : env.leaseRes = Except.ok p) :
    SurrogateOracle.evaluate_trust s env.predict env.normCdf env.normPdf
        = Except.ok ((0, 0), 100, true) ∧
    (SurrogateOracle.train s fitRes).is_trained = false ∧
    (objective s env).ranReal = true ∧
    (objective s env).provenance ≠ some Provenance.predicted ∧
    (objective s env).leaseCalls = 1 ∧
    (objective s env).simCalls = 1 := by
  have hobj : objective s env = runReal s env := by
    unfold Orchestrator.objective
    rw [huntrained]
    simp
  have hfacts := runReal_admitted_facts s env p hcfg hlease
  refine ⟨?_, ?_, ?_, ?_, ?_, ?_⟩
  · unfold SurrogateOracle.evaluate_trust
    rw [huntrained]
    simp
  · unfold SurrogateOracle.train
    rw [if_pos hlen]
    exact huntrained
  · rw [hobj]; exact hfacts.1
  · rw [hobj]; exact hfacts.2.1
  · rw [hobj]; exact hfacts.2.2.1
  · rw [hobj]; exact hfacts.2.2.2

/-- C5 witness: a fresh SurrogateOracle (zero observations) on a
successful simulation path. -/
theorem C5_untrained_gate_always_admits_witness :
    SurrogateOracle.evaluate_trust SurrogateOracle.initState
        (Except.ok ((0 : ℚ), (0 : ℚ)) : Except Unit (ℚ × ℚ))
        (fun q => q) (fun q => q)
        = Except.ok ((0, 0), 100, true) ∧
    (SurrogateOracle.train SurrogateOracle.initState
        (Except.ok () : Except Unit Unit)).is_trained = false ∧
    (objective (ε := Unit) SurrogateOracle.initState
        ⟨[(("k_spring_f" : String), (50000 : ℚ))], Except.ok (0, 0), fun q => q, fun q => q,
          0, 0, 0, 0, 1, Except.ok (), 0, Except.ok (), Except.ok 16660,
          Except.ok ("SUCCESS"), ⟨some (.fin 60), some (.fin 2)⟩⟩).ranReal = true ∧
    (objective (ε := Unit) SurrogateOracle.initState
        ⟨[(("k_spring_f" : String), (50000 : ℚ))], Except.ok (0, 0), fun q => q, fun q => q,
          0, 0, 0, 0, 1, Except.ok (), 0, Except.ok (), Except.ok 16660,
          Except.ok ("SUCCESS"), ⟨some (.fin 60), some (.fin 2)⟩⟩).provenance
        ≠ some Provenance.predicted ∧
    (objective (ε := Unit) SurrogateOracle.initState
        ⟨[(("k_spring_f" : String), (50000 : ℚ))], Except.ok (0, 0), fun q => q, fun q => q,
          0, 0, 0, 0, 1, Except.ok (), 0, Except.ok (), Except.ok 16660,
          Except.ok ("SUCCESS"), ⟨some (.fin 60), some (.fin 2)⟩⟩).leaseCalls = 1 ∧
    (objective (ε := Unit) SurrogateOracle.initState
        ⟨[(("k_spring_f" : String), (50000 : ℚ))], Except.ok (0, 0), fun q => q, fun q => q,
          0, 0, 0, 0, 1, Except.ok (), 0, Except.ok (), Except.ok 16660,
          Except.ok ("SUCCESS"), ⟨some (.fin 60), some (.fin 2)⟩⟩).simCalls = 1 :=
  C5_untrained_gate_always_admits SurrogateOracle.initState
    ⟨[(("k_spring_f" : String), (50000 : ℚ))], Except.ok (0, 0), fun q => q, fun q => q,
      0, 0, 0, 0, 1, Except.ok (), 0, Except.ok (), Except.ok 16660,
      Except.ok ("SUCCESS"), ⟨some (.fin 60), some (.fin 2)⟩⟩
    (Except.ok ()) 16660 rfl (by decide) rfl rfl

/-- C6 counterexample: a predict failure inside the trained gate is not
caught anywhere — it escapes evaluate_trust and objective as a scheduler
error, refuting the claim that no fit or predict failure ever propagates
out of the gate. -/
theorem C6_counterexample :
    (objective (ε := Unit)
        (⟨true, [[1], [2], [3], [4], [5]], [60, 61, 62, 63, 64], []⟩
          : SurrogateOracle.State)
        ⟨[], Except.error (), fun q => q, fun q => q, 0, 0, 0, 0, 0,
          Except.ok (), 0, Except.ok (), Except.ok 16660,
          Except.ok ("SUCCESS"), ⟨none, none⟩⟩).result
      = Except.error (OrchError.gateError (SurrogateOracle.GateErr.ext ())) := by
  rfl

/-- C6 amended: a fit failure inside train is swallowed and leaves the
oracle state unchanged (an untrained gate therefore stays force-admit),
but a predict failure inside evaluate_trust is uncaught and propagates
out of the gate and out of objective as a scheduler error. -/
theorem C6_amended {ε : Type} (s : SurrogateOracle.State) (e : ε)
    (env : Env ε) (f g : ℚ → ℚ)
    (htrained : s.is_trained = true)
    (hpredict : env.predict = Except.error e) :
    SurrogateOracle.train s (Except.error e) = s ∧
    SurrogateOracle.evaluate_trust s (Except.error e) f g
        = Except.error (SurrogateOracle.GateErr.ext e) ∧
    (objective s env).result
        = Except.error (OrchError.gateError (SurrogateOracle.GateErr.ext e)) := by
  have htr : SurrogateOracle.train s (Except.error e) = s := by
    unfold SurrogateOracle.train
    split
    · rfl
    · rfl
  have hev : ∀ f2 g2 : ℚ → ℚ, SurrogateOracle.evaluate_trust s (Except.error e) f2 g2
      = Except.error (SurrogateOracle.GateErr.ext e) := by
    intro f2 g2
    unfold SurrogateOracle.evaluate_trust
    rw [htrained]
    simp
  refine ⟨htr, hev f g, ?_⟩
  unfold Orchestrator.objective
  rw [htrained, hpredict, hev]
  simp

/-- C6 amended witness: a concrete trained state with a failing predict
oracle. -/
theorem C6_amended_witness :
    SurrogateOracle.train
        (⟨true, [[1], [2], [3], [4], [5], [6]], [50, 51, 52, 53, 54, 55], []⟩
          : SurrogateOracle.State) (Except.error (0 : ℕ))
      = (⟨true, [[1], [2], [3], [4], [5], [6]], [50, 51, 52, 53, 54, 55], []⟩
          : SurrogateOracle.State) ∧
    SurrogateOracle.evaluate_trust
        (⟨true, [[1], [2], [3], [4], [5], [6]], [50, 51, 52, 53, 54, 55], []⟩
          : SurrogateOracle.State) (Except.error (0 : ℕ)) (fun q => q) (fun q => q)
      = Except.error (SurrogateOracle.GateErr.ext 0) ∧
    (objective
        (⟨true, [[1], [2], [3], [4], [5], [6]], [50, 51, 52, 53, 54, 55], []⟩
          : SurrogateOracle.State)
        (⟨[], Except.error 0, fun q => q, fun q => q, 0, 0, 0, 0, 0,
          Except.ok (), 0, Except.ok (), Except.ok 16660,
          Except.ok ("SUCCESS"), ⟨none, none⟩⟩ : Env ℕ)).result
      = Except.error (OrchError.gateError (SurrogateOracle.GateErr.ext 0)) :=
  C6_amended
    (⟨true, [[1], [2], [3], [4], [5], [6]], [50, 51, 52, 53, 54, 55], []⟩
      : SurrogateOracle.State) 0
    (⟨[], Except.error 0, fun q => q, fun q => q, 0, 0, 0, 0, 0,
      Except.ok (), 0, Except.ok (), Except.ok 16660,
      Except.ok ("SUCCESS"), ⟨none, none⟩⟩ : Env ℕ)
    (fun q => q) (fun q => q) rfl rfl

/-- C7: the periodic-retrain claim fails on the code: SurrogateOracle
defines no train_frequency attribute, so the retrain check at
orchestrator.py line 119 raises AttributeError on every admitted real
evaluation — train() is never invoked by the trial loop, and the error
escapes to the proposer.  Shown on a fresh scheduler whose first admitted
simulation completes successfully. -/
theorem C7_retrain_attribute_error :
    SurrogateOracle.trainFrequencyAttr = none ∧
    (objective (ε := Unit) SurrogateOracle.initState
        ⟨[(("k_spring_f" : String), (50000 : ℚ))], Except.ok (0, 0), fun q => q, fun q => q,
          0, 0, 0, 0, 1, Except.ok (), 0, Except.ok (), Except.ok 16660,
          Except.ok ("SUCCESS"), ⟨some (.fin 60), some (.fin 2)⟩⟩).result
      = Except.error OrchError.missingTrainFrequency ∧
    (objective (ε := Unit) SurrogateOracle.initState
        ⟨[(("k_spring_f" : String), (50000 : ℚ))], Except.ok (0, 0), fun q => q, fun q => q,
          0, 0, 0, 0, 1, Except.ok (), 0, Except.ok (), Except.ok 16660,
          Except.ok ("SUCCESS"), ⟨some (.fin 60), some (.fin 2)⟩⟩).trainCalled = false := by
  exact ⟨rfl, rfl, rfl⟩

/-- C8: every ingest appends exactly one observation to the training
history; a failed or invalid measured cost (at or above the 900.0 sentinel
region, including infinity) is stored as the bounded penalty 150.0 plus
the unit-variance noise sample — a value far below the sentinel — while a
valid cost is stored unchanged. -/
theorem C8_ingest_appends_one_clamped (s : SurrogateOracle.State)
    (params : List (String × ℚ)) (results : PyFloat × PyFloat) (noise : ℚ)
    (hnoise : |noise| ≤ 10) :
    (SurrogateOracle.add_observation s params results noise).X_history.length
        = s.X_history.length + 1 ∧
    (SurrogateOracle.add_observation s params results noise).y_history
        = s.y_history ++ [if results.1.ge900 then 150 + noise else results.1.toQ] ∧
    (results.1.ge900 = true →
        (140 : ℚ) ≤ 150 + noise ∧ (150 + noise : ℚ) ≤ 160 ∧
        ¬ ((900 : ℚ) ≤ 150 + noise)) := by
  rw [abs_le] at hnoise
  refine ⟨?_, rfl, ?_⟩
  · simp [SurrogateOracle.add_observation]
  · intro _
    refine ⟨by linarith [hnoise.1], by linarith [hnoise.2], ?_⟩
    intro h
    linarith [hnoise.2]

/-- C8 witness: ingesting a crashed run whose parsed cost is infinity,
with noise sample 1. -/
theorem C8_ingest_appends_one_clamped_witness :
    (SurrogateOracle.add_observation SurrogateOracle.initState
        [(("k_spring_f" : String), (1 : ℚ))]
        (PyFloat.inf, PyFloat.fin 99) 1).X_history.length
      = SurrogateOracle.initState.X_history.length + 1 ∧
    (SurrogateOracle.add_observation SurrogateOracle.initState
        [(("k_spring_f" : String), (1 : ℚ))]
        (PyFloat.inf, PyFloat.fin 99) 1).y_history
      = SurrogateOracle.initState.y_history
          ++ [if (PyFloat.inf, PyFloat.fin 99).1.ge900 then 150 + 1
              else (PyFloat.inf, PyFloat.fin 99).1.toQ] ∧
    ((PyFloat.inf, PyFloat.fin 99).1.ge900 = true →
        (140 : ℚ) ≤ 150 + 1 ∧ (150 + 1 : ℚ) ≤ 160 ∧ ¬ ((900 : ℚ) ≤ 150 + 1)) :=
  C8_ingest_appends_one_clamped SurrogateOracle.initState
    [(("k_spring_f" : String), (1 : ℚ))] (PyFloat.inf, PyFloat.fin 99) 1
    (by norm_num)

/-- C9: the distance-based novelty admission fails on the code.  No
distance computation or trusted-region threshold exists anywhere under
src (the third value evaluate_trust would return is the EI-based
is_promising, and SurrogateOracle assigns no max_trusted_distance
attribute — the novelty log line at orchestrator.py line 92 would raise
AttributeError if ever reached).  It is never reached: on the trained
model with an exploration-shaped prediction (mean 58, sigma 1 above the
0.5 ceiling, record 59), evaluate_trust raises TypeError at surrogate.py
line 137 before computing the flag, so the candidate dies inside the gate
instead of being admitted for a real evaluation: no lease and no launch
happen. -/
theorem C9_novelty_admission_unreachable :
    SurrogateOracle.maxTrustedDistanceAttr = none ∧
    SurrogateOracle.evaluate_trust sNovel envNovel.predict
        envNovel.normCdf envNovel.normPdf
      = Except.error SurrogateOracle.GateErr.eiItemAssignment ∧
    (objective sNovel envNovel).result
      = Except.error (OrchError.gateError SurrogateOracle.GateErr.eiItemAssignment) ∧
    (objective sNovel envNovel).ranReal = false ∧
    (objective sNovel envNovel).leaseCalls = 0 ∧
    (objective sNovel envNovel).simCalls = 0 := by
  exact ⟨rfl, rfl, rfl, rfl, rfl, rfl⟩

/-- C10 counterexample: when the lease raises the pool-exhaustion error
(permit granted but no port), the blanket exception handler of the orchestrator
converts it into the normal bounded outcome (999.0, 99.0) and the campaign
continues — the error does not stop the scheduler, refuting the claim
that it is fatal and non-retryable. -/
theorem C10_counterexample :
    (run_carmaker_simulation (ε := Unit) (Except.ok ()) (Except.error ())
        (Except.ok ("SUCCESS")) ⟨none, none⟩).result
      = Except.ok (.fin 999, .fin 99) := by
  rfl

/-- C10 amended: acquisition is two-phase and the pool does raise an
internal-consistency error (the ResourceWarning at line 57) whenever the
license permit was granted but the port queue is empty, releasing the
permit on the way out; but the orchestrator treats that error like any
other simulation failure — the blanket handler returns the bounded pair
(999.0, 99.0) and the scheduler keeps running instead of stopping. -/
theorem C10_amended {ε α : Type} (m : ManagerState) (body : ℕ → Except ε α)
    (e : ε) (simRes : Except ε String) (kpis : Kpis)
    (hsem : m.semCount ≠ 0) (hempty : m.availablePorts = []) :
    (lease m body).1 = LeaseOutcome.portPoolExhaustion ∧
    (lease m body).2.2.semReleases = 1 ∧
    (run_carmaker_simulation (Except.ok ()) (Except.error e) simRes kpis).result
      = Except.ok (.fin 999, .fin 99) := by
  unfold ResourceManager.lease Orchestrator.run_carmaker_simulation
  rw [if_neg hsem, hempty]
  exact ⟨rfl, rfl, rfl⟩

/-- C10 amended witness: a pool whose port queue is empty while the
semaphore still has permits, and the orchestrator path in which the
resulting error was raised by the lease. -/
theorem C10_amended_witness :
    (lease (⟨[], 2⟩ : ManagerState) (fun p => (Except.error p : Except ℕ Unit))).1
      = LeaseOutcome.portPoolExhaustion ∧
    (lease (⟨[], 2⟩ : ManagerState)
        (fun p => (Except.error p : Except ℕ Unit))).2.2.semReleases = 1 ∧
    (run_carmaker_simulation (Except.ok ()) (Except.error (5 : ℕ))
        (Except.ok ("SUCCESS")) ⟨none, none⟩).result
      = Except.ok (.fin 999, .fin 99) :=
  C10_amended (⟨[], 2⟩ : ManagerState) (fun p => (Except.error p : Except ℕ Unit))
    5 (Except.ok ("SUCCESS")) ⟨none, none⟩ (by decide) rfl

end Carmaker
